import Mathlib

/-!
Verification of the bootstrap entry point (`src-tauri/src/main.rs`) of the
opensubtitles-uploader-pro application.  The file is a shallow embedding of
`fn main()`: the builder/plugin registration chain, the setup closure, and the
framework run-loop handoff, together with proofs of the specified properties.
-/

namespace Uploader

/-- The five capability plugins registered in `main`. -/
inductive Plugin where
  | shell
  | fs
  | dialog
  | http
  | updater
deriving DecidableEq, Repr

/-- The tauri application builder: the only state this code puts into it is the
list of registered plugins, in registration order. -/
structure Builder where
  plugins : List Plugin
deriving DecidableEq, Repr

/-- Translation of `tauri::Builder::default()`. -/
def Builder.default : Builder := ⟨[]⟩

/-- Translation of `.plugin(p)`: appends one plugin registration to the builder. -/
def Builder.plugin (b : Builder) (p : Plugin) : Builder := ⟨b.plugins ++ [p]⟩

/-- The builder exactly as configured in `main`:
`Builder::default().plugin(shell).plugin(fs).plugin(dialog).plugin(http).plugin(updater)`. -/
def mainBuilder : Builder :=
  (((((Builder.default).plugin .shell).plugin .fs).plugin .dialog).plugin .http).plugin .updater

/-- The registration order of the `.plugin` calls in `main`. -/
def pluginOrder : List Plugin := [.shell, .fs, .dialog, .http, .updater]

/-- Registering a list of plugins on a builder, one `.plugin` call per element. -/
def registerAll (order : List Plugin) (b : Builder) : Builder :=
  order.foldl Builder.plugin b

/-- The application handle the framework passes to the setup closure.
`windows` is the window registry (window labels) at setup time; `evalSucceeds`
models whether script evaluation in the webview succeeds. -/
structure AppHandle where
  windows : List String
  evalSucceeds : Bool
deriving DecidableEq, Repr

/-- Translation of `app.get_webview_window(label)`: resolves a window by label, `none` when no
such window is registered. -/
def getWebviewWindow (app : AppHandle) (label : String) : Option String :=
  if app.windows.contains label then some label else none

/-- The argument of a `console.log` call in the injected script: a string
literal or the read of `window.location.protocol`. -/
inductive JsArg where
  | strLit (s : String)
  | locationProtocol
deriving DecidableEq, Repr

/-- A statement of the injected script: a `console.log` call. -/
inductive JsStmt where
  | consoleLog (args : List JsArg)
deriving DecidableEq, Repr

/-- The statements of the diagnostic script injected by the setup closure. -/
def diagStmts : List JsStmt :=
  [ .consoleLog [.strLit "🔧 Tauri v2 setup complete"],
    .consoleLog [.strLit "🔧 Drag and drop should be enabled"],
    .consoleLog [.strLit "🔧 Protocol:", .locationProtocol] ]

/-- Source text of one `console.log` argument. -/
def renderArg : JsArg → String
  | .strLit s => "\x27" ++ s ++ "\x27"
  | .locationProtocol => "window.location.protocol"

/-- Source text of one statement of the script. -/
def renderStmt : JsStmt → String
  | .consoleLog args => "console.log(" ++ String.intercalate ", " (args.map renderArg) ++ ");"

/-- Source text of a script: each statement on its own indented line, matching
the raw-string layout in `main.rs`. -/
def renderScript (stmts : List JsStmt) : String :=
  "\n" ++ String.join (stmts.map (fun s => "                " ++ renderStmt s ++ "\n"))
    ++ "            "

/-- The exact raw-string literal passed to `window.eval` in `main.rs`. -/
def diagScript : String :=
  "\n                console.log(\x27🔧 Tauri v2 setup complete\x27);\n                console.log(\x27🔧 Drag and drop should be enabled\x27);\n                console.log(\x27🔧 Protocol:\x27, window.location.protocol);\n            "

/-- The value a script argument evaluates to, given the value of
`window.location.protocol` in the window. -/
def argValue (protocol : String) : JsArg → String
  | .strLit s => s
  | .locationProtocol => protocol

/-- The console line one statement produces (`console.log` joins its arguments
with single spaces). -/
def logEntry (protocol : String) : JsStmt → String
  | .consoleLog args => String.intercalate " " (args.map (argValue protocol))

/-- The console lines received by the window when a script runs. -/
def consoleOutput (protocol : String) (stmts : List JsStmt) : List String :=
  stmts.map (logEntry protocol)

/-- Translation of `window.eval(script)`: returns `Ok` or `Err` depending on the webview. -/
def windowEval (app : AppHandle) (script : String) : Except String Unit :=
  if app.evalSucceeds then Except.ok () else Except.error script

instance {ε α : Type} [DecidableEq ε] [DecidableEq α] : DecidableEq (Except ε α) :=
  fun a b =>
    match a, b with
    | .ok x, .ok y =>
        if h : x = y then isTrue (by rw [h]) else isFalse (by intro hc; cases hc; exact h rfl)
    | .error x, .error y =>
        if h : x = y then isTrue (by rw [h]) else isFalse (by intro hc; cases hc; exact h rfl)
    | .ok _, .error _ => isFalse (by intro hc; cases hc)
    | .error _, .ok _ => isFalse (by intro hc; cases hc)

/-- An observable side effect performed by the setup closure. -/
inductive Effect where
  | openDevtools (window : String)
  | evalScript (window : String) (script : String) (result : Except String Unit)
deriving DecidableEq, Repr

/-- What one run of the setup closure did: whether an `unwrap` aborted the
process, the side effects performed before returning or aborting, and the
return value of the closure (`none` when it aborted). -/
structure SetupOutcome where
  panicked : Bool
  effects : List Effect
  result : Option (Except String Unit)
deriving DecidableEq, Repr

/-- Translation of the setup closure of `main.rs`.  `debugAssertions` models
the `cfg(debug_assertions)` build flag: when it is set the closure first
resolves the window named "main" (aborting on failure) and opens its devtools;
in both configurations it then resolves "main" again (aborting on failure),
evaluates the diagnostic script discarding the outcome, and returns `Ok(())`. -/
def setupHook (debugAssertions : Bool) (app : AppHandle) : SetupOutcome :=
  if debugAssertions then
    match getWebviewWindow app "main" with
    | none => { panicked := true, effects := [], result := none }
    | some window =>
      match getWebviewWindow app "main" with
      | none => { panicked := true, effects := [Effect.openDevtools window], result := none }
      | some window2 =>
        { panicked := false
          effects := [Effect.openDevtools window,
                      Effect.evalScript window2 diagScript (windowEval app diagScript)]
          result := some (Except.ok ()) }
  else
    match getWebviewWindow app "main" with
    | none => { panicked := true, effects := [], result := none }
    | some window2 =>
      { panicked := false
        effects := [Effect.evalScript window2 diagScript (windowEval app diagScript)]
        result := some (Except.ok ()) }

/-- The build flag and environment one run of the program executes in. -/
structure RunContext where
  debugAssertions : Bool
  app : AppHandle
  frameworkError : Option String
deriving DecidableEq, Repr

/-- An event of one run, in order of occurrence. -/
inductive FrameworkEvent where
  | windowCreated (label : String)
  | setupInvoked
  | effect (e : Effect)
  | runLoopEntered
deriving DecidableEq, Repr

/-- How the call to `run` ended.  `blockedUntilExit` means the run loop holds
the calling thread until the application exits, so `run` never returns;
`errReturn` is `run` returning `Err`; `panic` is an abort from an `unwrap`
inside the setup closure; `abortWithMessage` is the abort `.expect` performs. -/
inductive RunOutcome where
  | panic
  | errReturn (e : String)
  | abortWithMessage (msg : String)
  | blockedUntilExit
deriving DecidableEq, Repr

/-- The result of one run: the event trace, how the run ended, and the
plugins registered on the builder at run-loop handoff. -/
structure RunResult where
  trace : List FrameworkEvent
  outcome : RunOutcome
  pluginsAtHandoff : Multiset Plugin

/-- Modelled from the spec: the event trace and ending of the `run` call of the framework (tauri is a third-party dependency, not part of this repository).
Per the spec, the framework creates the windows, invokes the setup hook
exactly once on the UI thread after the main window exists, and then blocks in
its event loop until application exit; a panic inside the hook aborts the
process, and an `Err` from the hook or a startup-phase framework error is
returned as `Err` from `run`. -/
def frameworkRun (ctx : RunContext) : List FrameworkEvent × RunOutcome :=
  let s := setupHook ctx.debugAssertions ctx.app
  let pre := ctx.app.windows.map FrameworkEvent.windowCreated
    ++ [FrameworkEvent.setupInvoked] ++ s.effects.map FrameworkEvent.effect
  if s.panicked then
    (pre, .panic)
  else
    match s.result with
    | some (Except.error e) => (pre, .errReturn e)
    | _ =>
      match ctx.frameworkError with
      | some e => (pre, .errReturn e)
      | none => (pre ++ [FrameworkEvent.runLoopEntered], .blockedUntilExit)

/-- Translation of `.run(tauri::generate_context!())` on a configured builder: hands the
registered plugins to the framework and lets it run. -/
def Builder.run (b : Builder) (ctx : RunContext) : RunResult :=
  { trace := (frameworkRun ctx).1, outcome := (frameworkRun ctx).2,
    pluginsAtHandoff := ↑b.plugins }

/-- The panic message of the `.expect` call in `main`. -/
def expectMsg : String := "error while running tauri application"

/-- Translation of `.run(...).expect(...)`: an `Err` return from `run` aborts the process
with the diagnostic message. -/
def runApp (b : Builder) (ctx : RunContext) : RunResult :=
  let r := Builder.run b ctx
  match r.outcome with
  | .errReturn _ => { r with outcome := .abortWithMessage expectMsg }
  | _ => r

/-- Translation of `fn main()`: configure `mainBuilder` and run it. -/
def main (ctx : RunContext) : RunResult := runApp mainBuilder ctx

/-- The windows on which a devtools panel was opened, in order. -/
def devtoolsOpens (l : List Effect) : List String :=
  l.filterMap fun e =>
    match e with
    | .openDevtools w => some w
    | _ => none

/-- The `(window, script)` pairs evaluated, in order. -/
def evalsPerformed (l : List Effect) : List (String × String) :=
  l.filterMap fun e =>
    match e with
    | .evalScript w s _ => some (w, s)
    | _ => none

/-- A trace with the devtools-opening events removed: everything observable
about a run except the developer-tools panel. -/
def stripDevtools (t : List FrameworkEvent) : List FrameworkEvent :=
  t.filter fun e =>
    match e with
    | .effect (.openDevtools _) => false
    | _ => true

/-- A concrete healthy environment: the main window exists, eval succeeds. -/
def app0 : AppHandle := { windows := ["main"], evalSucceeds := true }

/-- A concrete context for a debug run in the healthy environment. -/
def ctx0 : RunContext := { debugAssertions := true, app := app0, frameworkError := none }

/-- Resolving "main" succeeds exactly when the registry holds it, and then
yields the "main" window itself. -/
theorem getWebviewWindow_main (app : AppHandle) :
    getWebviewWindow app "main" =
      if app.windows.contains "main" then some "main" else none := rfl

/-- Computation of the setup closure when the "main" window resolves. -/
theorem setupHook_of_found (d : Bool) (app : AppHandle)
    (h : "main" ∈ app.windows) :
    setupHook d app =
      { panicked := false
        effects := (if d then [Effect.openDevtools "main"] else [])
          ++ [Effect.evalScript "main" diagScript (windowEval app diagScript)]
        result := some (Except.ok ()) } := by
  cases d <;> simp [setupHook, getWebviewWindow, h]

/-- Computation of the setup closure when the "main" window is missing. -/
theorem setupHook_of_missing (d : Bool) (app : AppHandle)
    (h : "main" ∉ app.windows) :
    setupHook d app = { panicked := true, effects := [], result := none } := by
  cases d <;> simp [setupHook, getWebviewWindow, h]

/-- The expect wrapper changes only the outcome of a run, never its trace or
its registered plugins, and only when `run` returned an error. -/
theorem runApp_eq (b : Builder) (ctx : RunContext) :
    runApp b ctx =
      { trace := (frameworkRun ctx).1
        outcome := match (frameworkRun ctx).2 with
          | .errReturn _ => .abortWithMessage expectMsg
          | o => o
        pluginsAtHandoff := ↑b.plugins } := by
  cases h : (frameworkRun ctx).2 <;> simp [runApp, Builder.run, h]

/-- An environment with no windows at all, and a debug run context in it. -/
def appNoWin : AppHandle := { windows := [], evalSucceeds := true }

/-- A debug run context in the window-less environment. -/
def ctxNoWin : RunContext := { debugAssertions := true, app := appNoWin, frameworkError := none }

/-- C1: the setup hook aborts the process exactly when no window named "main"
can be resolved — this resolution is its only failure path — and in that case
it performs no effect, the run terminates abnormally with the panic, and the
run loop is never entered. -/
theorem setup_panics_iff_main_window_missing (ctx : RunContext) :
    ((setupHook ctx.debugAssertions ctx.app).panicked = true ↔
      getWebviewWindow ctx.app "main" = none) ∧
    (getWebviewWindow ctx.app "main" = none →
      (setupHook ctx.debugAssertions ctx.app).effects = [] ∧
      (main ctx).outcome = RunOutcome.panic ∧
      FrameworkEvent.runLoopEntered ∉ (main ctx).trace) := by
  by_cases h : "main" ∈ ctx.app.windows
  · have hs := setupHook_of_found ctx.debugAssertions ctx.app h
    simp [hs, getWebviewWindow, h]
  · have hs := setupHook_of_missing ctx.debugAssertions ctx.app h
    refine ⟨by simp [hs, getWebviewWindow, h], fun _ => ⟨by simp [hs], ?_, ?_⟩⟩
    · simp [main, runApp_eq, frameworkRun, hs]
    · simp [main, runApp_eq, frameworkRun, hs]

/-- Witness for C1: in a run with no windows, the setup hook panics with no
effect performed and the run loop is never entered. -/
theorem setup_panics_iff_main_window_missing_witness :
    (setupHook ctxNoWin.debugAssertions ctxNoWin.app).effects = [] ∧
    (main ctxNoWin).outcome = RunOutcome.panic ∧
    FrameworkEvent.runLoopEntered ∉ (main ctxNoWin).trace :=
  (setup_panics_iff_main_window_missing ctxNoWin).2 (by decide)

/-- C2: a debug-build setup on a resolvable main window opens the devtools
panel exactly once, on the main window; a release-build setup never opens a
devtools panel, in any environment. -/
theorem devtools_opened_iff_debug :
    (∀ app : AppHandle, "main" ∈ app.windows →
      devtoolsOpens (setupHook true app).effects = ["main"]) ∧
    (∀ app : AppHandle, devtoolsOpens (setupHook false app).effects = []) := by
  constructor
  · intro app h
    simp [setupHook_of_found true app h, devtoolsOpens]
  · intro app
    by_cases h : "main" ∈ app.windows
    · simp [setupHook_of_found false app h, devtoolsOpens]
    · simp [setupHook_of_missing false app h, devtoolsOpens]

/-- Witness for C2 in the healthy environment: one devtools opening in debug,
none in release. -/
theorem devtools_opened_iff_debug_witness :
    devtoolsOpens (setupHook true app0).effects = ["main"] ∧
    devtoolsOpens (setupHook false app0).effects = [] :=
  ⟨devtools_opened_iff_debug.1 app0 (by decide), devtools_opened_iff_debug.2 app0⟩

set_option maxRecDepth 8000 in
/-- C3: in every build configuration, a setup on a resolvable main window
evaluates exactly one script, on the main window, and that script is the fixed
non-configurable diagnostic literal; the literal renders exactly the three
console.log statements of `diagStmts`, whose execution writes exactly three
console lines: two fixed diagnostics followed by a line carrying the value
read from `window.location.protocol`. -/
theorem diagnostic_script_fixed_three_logs (d : Bool) (app : AppHandle) (p : String)
    (h : "main" ∈ app.windows) :
    evalsPerformed (setupHook d app).effects = [("main", diagScript)] ∧
    diagScript = renderScript diagStmts ∧
    consoleOutput p diagStmts =
      ["🔧 Tauri v2 setup complete", "🔧 Drag and drop should be enabled",
        "🔧 Protocol: " ++ p] ∧
    (consoleOutput p diagStmts).length = 3 := by
  refine ⟨?_, by decide, ?_, by simp [consoleOutput, diagStmts]⟩
  · cases d <;> simp [setupHook_of_found _ app h, evalsPerformed]
  · simp [consoleOutput, diagStmts, logEntry, argValue, String.intercalate,
      String.intercalate.go]

/-- Witness for C3 in the healthy environment with protocol value "tauri:". -/
theorem diagnostic_script_fixed_three_logs_witness :
    evalsPerformed (setupHook true app0).effects = [("main", diagScript)] ∧
    diagScript = renderScript diagStmts ∧
    consoleOutput "tauri:" diagStmts =
      ["🔧 Tauri v2 setup complete", "🔧 Drag and drop should be enabled",
        "🔧 Protocol: " ++ "tauri:"] ∧
    (consoleOutput "tauri:" diagStmts).length = 3 :=
  diagnostic_script_fixed_three_logs true app0 "tauri:" (by decide)

/-- C9: whenever the setup hook does not panic it returns `Ok(())`; it never
returns `Err`, and its return value does not depend on whether evaluating the
injected script succeeded — the evaluation outcome is discarded. -/
theorem setup_returns_ok_discarding_eval (d : Bool) (app : AppHandle) :
    ((setupHook d app).panicked = false → (setupHook d app).result = some (Except.ok ())) ∧
    (∀ e : String, (setupHook d app).result ≠ some (Except.error e)) ∧
    (∀ b : Bool, (setupHook d { app with evalSucceeds := b }).result =
      (setupHook d app).result) := by
  by_cases h : "main" ∈ app.windows
  · refine ⟨fun _ => by simp [setupHook_of_found d app h], fun e => ?_, fun b => ?_⟩
    · simp [setupHook_of_found d app h]
    · simp [setupHook_of_found d app h, setupHook_of_found d { app with evalSucceeds := b } h]
  · refine ⟨fun hf => ?_, fun e => ?_, fun b => ?_⟩
    · simp [setupHook_of_missing d app h] at hf
    · simp [setupHook_of_missing d app h]
    · simp [setupHook_of_missing d app h, setupHook_of_missing d { app with evalSucceeds := b } h]

/-- An environment where the main window exists but script evaluation fails. -/
def appEvalFail : AppHandle := { windows := ["main"], evalSucceeds := false }

/-- Witness for C9: even when script evaluation fails, the hook returns Ok. -/
theorem setup_returns_ok_discarding_eval_witness :
    (setupHook true appEvalFail).result = some (Except.ok ()) :=
  (setup_returns_ok_discarding_eval true appEvalFail).1 (by decide)

/-- C10: when the first resolution of the "main" window in the debug block
succeeds, the second, unconditional resolution also yields the same window,
so the second abort point is unreachable: the hook runs to completion. -/
theorem second_window_lookup_succeeds (app : AppHandle) (w : String)
    (h : getWebviewWindow app "main" = some w) :
    getWebviewWindow app "main" = some w ∧
    (setupHook true app).panicked = false ∧
    (setupHook true app).effects =
      [Effect.openDevtools w, Effect.evalScript w diagScript (windowEval app diagScript)] := by
  by_cases hm : "main" ∈ app.windows
  · have hw := h
    simp [getWebviewWindow, hm] at hw
    subst hw
    exact ⟨h, by simp [setupHook_of_found true app hm],
      by simp [setupHook_of_found true app hm]⟩
  · simp [getWebviewWindow, hm] at h

/-- Witness for C10 in the healthy environment. -/
theorem second_window_lookup_succeeds_witness :
    getWebviewWindow app0 "main" = some "main" ∧
    (setupHook true app0).panicked = false ∧
    (setupHook true app0).effects =
      [Effect.openDevtools "main",
        Effect.evalScript "main" diagScript (windowEval app0 diagScript)] :=
  second_window_lookup_succeeds app0 "main" (by decide)

/-- Registering a list of plugins appends it to the plugin list of the builder. -/
theorem registerAll_plugins (l : List Plugin) (b : Builder) :
    (registerAll l b).plugins = b.plugins ++ l := by
  induction l generalizing b with
  | nil => simp [registerAll]
  | cons p t ih =>
    show (registerAll t (b.plugin p)).plugins = _
    rw [ih]
    simp [Builder.plugin]

/-- The plugin list of the builder configured in `main` is the registration
order of the five `.plugin` calls. -/
theorem mainBuilder_plugins : mainBuilder.plugins = pluginOrder := rfl

/-- C4: at run-loop handoff `main` has registered exactly the five capability
plugins — shell, filesystem, dialog, HTTP, updater — each exactly once. -/
theorem all_five_plugins_registered_at_handoff (ctx : RunContext) :
    (main ctx).pluginsAtHandoff = ↑pluginOrder ∧
    ∀ p : Plugin, Multiset.count p (main ctx).pluginsAtHandoff = 1 := by
  have h : (main ctx).pluginsAtHandoff = ↑pluginOrder := by
    rw [main, runApp_eq]
    rfl
  refine ⟨h, fun p => ?_⟩
  rw [h]
  cases p <;> decide

/-- Witness for C4: instantiation at the healthy debug run, with the count
spelled out for the shell plugin. -/
theorem all_five_plugins_registered_at_handoff_witness :
    (main ctx0).pluginsAtHandoff = ↑pluginOrder ∧
    Multiset.count Plugin.shell (main ctx0).pluginsAtHandoff = 1 :=
  ⟨(all_five_plugins_registered_at_handoff ctx0).1,
    (all_five_plugins_registered_at_handoff ctx0).2 Plugin.shell⟩

/-- C5: registering the five plugins in any order yields a functionally
equivalent application: the run has the same trace, the same outcome and the
same registered plugins at handoff, so `runApp` returns the same result. -/
theorem plugin_registration_order_independent (l : List Plugin) (ctx : RunContext)
    (h : l.Perm pluginOrder) :
    runApp (registerAll l Builder.default) ctx = runApp mainBuilder ctx := by
  have h1 : (registerAll l Builder.default).plugins = l := by
    rw [registerAll_plugins]
    rfl
  rw [runApp_eq, runApp_eq, h1, mainBuilder_plugins]
  simp only [RunResult.mk.injEq, true_and]
  exact Multiset.coe_eq_coe.mpr h

/-- The reverse of the registration order of the source. -/
def reversedOrder : List Plugin := [.updater, .http, .dialog, .fs, .shell]

/-- Witness for C5: registering in reverse order is equivalent. -/
theorem plugin_registration_order_independent_witness :
    runApp (registerAll reversedOrder Builder.default) ctx0 = runApp mainBuilder ctx0 :=
  plugin_registration_order_independent reversedOrder ctx0 (by decide)

/-- C6: `main` never returns an error value to its caller — it blocks in the
run loop until application exit when setup succeeded and the framework reports
no startup error, aborts with the expect diagnostic when the framework reports
a startup error, and aborts with the panic when setup panicked; no retry path
exists. -/
theorem run_blocks_or_aborts (ctx : RunContext) :
    (∀ e : String, (main ctx).outcome ≠ RunOutcome.errReturn e) ∧
    ((setupHook ctx.debugAssertions ctx.app).panicked = false →
      ctx.frameworkError = none → (main ctx).outcome = RunOutcome.blockedUntilExit) ∧
    ((setupHook ctx.debugAssertions ctx.app).panicked = false →
      ∀ e : String, ctx.frameworkError = some e →
        (main ctx).outcome = RunOutcome.abortWithMessage expectMsg) ∧
    ((setupHook ctx.debugAssertions ctx.app).panicked = true →
      (main ctx).outcome = RunOutcome.panic) := by
  by_cases hm : "main" ∈ ctx.app.windows
  · have hs := setupHook_of_found ctx.debugAssertions ctx.app hm
    cases he : ctx.frameworkError <;>
      simp [main, runApp_eq, frameworkRun, hs, he]
  · have hs := setupHook_of_missing ctx.debugAssertions ctx.app hm
    cases he : ctx.frameworkError <;>
      simp [main, runApp_eq, frameworkRun, hs, he]

/-- Witness for C6: the healthy debug run blocks until application exit. -/
theorem run_blocks_or_aborts_witness :
    (main ctx0).outcome = RunOutcome.blockedUntilExit :=
  (run_blocks_or_aborts ctx0).2.1 (by decide) rfl

/-- Removing devtools events distributes over trace concatenation. -/
theorem stripDevtools_append (s t : List FrameworkEvent) :
    stripDevtools (s ++ t) = stripDevtools s ++ stripDevtools t := by
  simp [stripDevtools, List.filter_append]

/-- Window-creation events are never removed by `stripDevtools`. -/
theorem stripDevtools_windowCreated (ws : List String) :
    stripDevtools (ws.map FrameworkEvent.windowCreated) =
      ws.map FrameworkEvent.windowCreated := by
  induction ws with
  | nil => rfl
  | cons w t ih => simp [stripDevtools, List.filter] at ih ⊢

/-- The release-build run context matching `ctx0`. -/
def ctx0Release : RunContext := { debugAssertions := false, app := app0, frameworkError := none }

/-- C7: two runs that differ only in the debug/release build flag have the
same outcome, the same registered plugins, and the same trace once the
devtools-opening events are erased: opening the devtools panel is the only
observable difference between the two configurations. -/
theorem debug_release_observational_equivalence (c1 c2 : RunContext)
    (happ : c1.app = c2.app) (herr : c1.frameworkError = c2.frameworkError) :
    stripDevtools (main c1).trace = stripDevtools (main c2).trace ∧
    (main c1).outcome = (main c2).outcome ∧
    (main c1).pluginsAtHandoff = (main c2).pluginsAtHandoff := by
  obtain ⟨d1, app1, err1⟩ := c1
  obtain ⟨d2, app2, err2⟩ := c2
  cases happ
  cases herr
  by_cases hm : "main" ∈ app1.windows
  · cases d1 <;> cases d2 <;> cases err1 <;>
      simp [main, runApp_eq, frameworkRun, setupHook_of_found _ app1 hm,
        stripDevtools_append, stripDevtools_windowCreated, stripDevtools, List.filter]
  · cases d1 <;> cases d2 <;> cases err1 <;>
      simp [main, runApp_eq, frameworkRun, setupHook_of_missing _ app1 hm,
        stripDevtools_append, stripDevtools_windowCreated, stripDevtools, List.filter]

/-- Witness for C7: the healthy debug run and the matching release run agree
on everything but the devtools opening. -/
theorem debug_release_observational_equivalence_witness :
    stripDevtools (main ctx0).trace = stripDevtools (main ctx0Release).trace ∧
    (main ctx0).outcome = (main ctx0Release).outcome ∧
    (main ctx0).pluginsAtHandoff = (main ctx0Release).pluginsAtHandoff :=
  debug_release_observational_equivalence ctx0 ctx0Release rfl rfl

/-- C8: in every run, the trace is the window creations, then exactly one
setup invocation, then events that contain no further setup invocation: the
setup hook fires exactly once, after every window — in particular after the
"main" window, whenever it exists — has been constructed. -/
theorem setup_invoked_once_after_windows (ctx : RunContext) :
    ∃ post : List FrameworkEvent,
      (main ctx).trace = ctx.app.windows.map FrameworkEvent.windowCreated
        ++ FrameworkEvent.setupInvoked :: post ∧
      FrameworkEvent.setupInvoked ∉ ctx.app.windows.map FrameworkEvent.windowCreated ∧
      FrameworkEvent.setupInvoked ∉ post ∧
      (∀ w : String, w ∈ ctx.app.windows →
        FrameworkEvent.windowCreated w ∈ ctx.app.windows.map FrameworkEvent.windowCreated) := by
  by_cases hm : "main" ∈ ctx.app.windows
  · have hs := setupHook_of_found ctx.debugAssertions ctx.app hm
    cases hd : ctx.debugAssertions <;> rw [hd] at hs <;> cases he : ctx.frameworkError
    · exact ⟨[.effect (.evalScript "main" diagScript (windowEval ctx.app diagScript)),
        .runLoopEntered],
        by simp [main, runApp_eq, frameworkRun, hs, hd, he],
        by simp, by simp, fun w hw => List.mem_map_of_mem _ hw⟩
    · exact ⟨[.effect (.evalScript "main" diagScript (windowEval ctx.app diagScript))],
        by simp [main, runApp_eq, frameworkRun, hs, hd, he],
        by simp, by simp, fun w hw => List.mem_map_of_mem _ hw⟩
    · exact ⟨[.effect (.openDevtools "main"),
        .effect (.evalScript "main" diagScript (windowEval ctx.app diagScript)),
        .runLoopEntered],
        by simp [main, runApp_eq, frameworkRun, hs, hd, he],
        by simp, by simp, fun w hw => List.mem_map_of_mem _ hw⟩
    · exact ⟨[.effect (.openDevtools "main"),
        .effect (.evalScript "main" diagScript (windowEval ctx.app diagScript))],
        by simp [main, runApp_eq, frameworkRun, hs, hd, he],
        by simp, by simp, fun w hw => List.mem_map_of_mem _ hw⟩
  · have hs := setupHook_of_missing ctx.debugAssertions ctx.app hm
    exact ⟨[], by simp [main, runApp_eq, frameworkRun, hs], by simp, by simp,
      fun w hw => List.mem_map_of_mem _ hw⟩

/-- Witness for C8: instantiation at the healthy debug run. -/
theorem setup_invoked_once_after_windows_witness :
    ∃ post : List FrameworkEvent,
      (main ctx0).trace = ctx0.app.windows.map FrameworkEvent.windowCreated
        ++ FrameworkEvent.setupInvoked :: post ∧
      FrameworkEvent.setupInvoked ∉ ctx0.app.windows.map FrameworkEvent.windowCreated ∧
      FrameworkEvent.setupInvoked ∉ post ∧
      (∀ w : String, w ∈ ctx0.app.windows →
        FrameworkEvent.windowCreated w ∈ ctx0.app.windows.map FrameworkEvent.windowCreated) :=
  setup_invoked_once_after_windows ctx0

end Uploader
